import Mathlib

/-!
Shallow embedding of the PhishGuard 360 flask backend (flask-backend/):
* `layers/layer1_database.py` — rule engine and result cache (Layer 1),
* `layers/layer3_detective.py` — detective agent scoring (Layer 3),
* `database/rag_database.py` — suspect records, conversation history, scan history,
* `app.py` — the escalation orchestrator `process_email_scan` / `finalize_scan_result`.

Conventions used throughout:
* Python strings are modelled as `String`; the character-level operations
  (substring membership, prefixes, lowercasing) run on `String.data : List Char`.
* Python float literals such as `0.95` are modelled as the exact rationals they
  denote; the code only ever compares and maxes these literals, so `ℚ` is a
  faithful model of the arithmetic actually performed.
* Wall-clock times (`datetime.utcnow()`) are modelled as a `Nat` number of
  seconds passed in explicitly; one operation of the source receives one `now`.
* SQLite tables are modelled as association lists kept in explicit state.
* `hashlib.md5(x).hexdigest()` is modelled as the hashed text itself: the code
  relies only on the hash being a deterministic function of its input.
-/

namespace PhishGuard

/-- Python `s.lower()` restricted to the character list of a string. -/
def lowerData (s : String) : List Char := s.data.map Char.toLower

/-- Python `needle in hay` for strings (substring containment). -/
def pyIn (needle : List Char) : List Char → Bool
  | [] => needle.isPrefixOf []
  | hay@(_ :: tl) => needle.isPrefixOf hay || pyIn needle tl

/-- Python `hay.startswith(needle)`. -/
def pyStartsWith (hay needle : List Char) : Bool := needle.isPrefixOf hay

/-- Python `hay.endswith(needle)`. -/
def pyEndsWith (hay needle : List Char) : Bool := needle.isSuffixOf hay

/-- Python `sender.split('@')[-1]`: the segment after the last `'@'`. -/
def lastSplitAt (sep : Char) (l : List Char) : List Char :=
  ((l.splitOn sep).getLast?).getD l

/--
Matcher for the regex dialect actually used by the repository: every pattern in
`layer1_database.py` is a sequence of literal segments joined by `.*`
(for example `r'urgent.*verify.*account'` is `["urgent", "verify", "account"]`).
In Python, `.` does not match a newline, so the `.*` gaps may skip any
characters except `'\n'`.  `reM skip parts l` holds when `parts` match at the
current position; `skip` records whether a `.*` gap is open, i.e. whether we
may consume a non-newline character before the next literal segment.
-/
def reMFuel : Nat → Bool → List (List Char) → List Char → Bool
  | _, _, [], _ => true
  | 0, _, _ :: _, _ => false
  | fuel + 1, skip, p :: rest, l =>
    (p.isPrefixOf l && reMFuel fuel true rest (l.drop p.length)) ||
    (skip &&
      match l with
      | [] => false
      | c :: tl => (c != '\n') && reMFuel fuel skip (p :: rest) tl)

/-- `reM` with enough fuel: every recursive step of `reMFuel` strictly
decreases `parts.length + l.length`, so `parts.length + l.length` steps always
reach the `parts = []` base case and the fuel bound is never hit. -/
def reM (skip : Bool) (parts : List (List Char)) (l : List Char) : Bool :=
  reMFuel (parts.length + l.length) skip parts l

/-- Python `re.search(pattern, l)`: the match may start at any position. -/
def reSearch (parts : List (List Char)) : List Char → Bool
  | [] => reM false parts []
  | l@(_ :: tl) => reM false parts l || reSearch parts tl

/-- `re.search` for a `.*`-joined literal pattern given as segment strings.
All call sites pass already-lowercased text and lowercase patterns, making the
source's `re.IGNORECASE` flag a no-op. -/
def reSearchP (parts : List String) (l : List Char) : Bool :=
  reSearch (parts.map String.data) l

/-! ## Layer 1 pattern tables (`load_spam_patterns`) -/

def sender_domains : List String :=
  ["suspicious-bank.com", "phishing-test.com", "fake-amazon.net",
   "secure-paypal.org", "gmail.com", "yahoo.com", "outlook.com"]

/-- `spam_patterns['subject_patterns']`, each regex split at its `.*` gaps. -/
def subject_patterns : List (List String) :=
  [["urgent", "verify", "account"],
   ["click", "here", "immediately"],
   ["suspended", "account"],
   ["confirm", "identity", "now"],
   ["limited", "time", "offer"],
   ["ssn", "number", "needed"],
   ["social", "security", "number"],
   ["verify", "ssn"],
   ["last", "four", "digits"],
   ["personal", "information", "missing"],
   ["crucial", "details", "missing"],
   ["checkup", "scheduled"],
   ["appointment", "reminder"]]

/-- `spam_patterns['body_patterns']`, each regex split at its `.*` gaps. -/
def body_patterns : List (List String) :=
  [["click", "link", "verify"],
   ["account", "suspended", "verify"],
   ["urgent", "action", "required"],
   ["confirm", "payment", "information"],
   ["ssn", "number"],
   ["social", "security", "number"],
   ["last", "four", "digits", "ssn"],
   ["share", "it", "urgently"],
   ["asap", "urgent"],
   ["personal", "information", "missing"],
   ["crucial", "details", "about", "your"],
   ["we", "found", "that", "we", "are", "missing"],
   ["public", "health", "services"],
   ["checkup", "scheduled", "on", "monday"],
   ["need", "last", "four", "digits"],
   ["please", "share", "it", "urgently"]]

def suspicious_phrases : List String :=
  ["share it urgently asap", "last four digits of your ssn",
   "missing crucial details", "personal information",
   "public health services", "urgently asap", "share it urgently"]

def financial_requests : List String :=
  ["ssn", "social security", "bank account", "credit card",
   "routing number", "account number", "pin number"]

def urgency_indicators : List String :=
  ["urgent", "immediately", "asap", "right away", "at earliest",
   "time sensitive", "expires soon", "act now"]

def suspicious_urls : List String := ["bit.ly", "tinyurl.com", "short.link"]

/-- The local SSN regexes of `check_spam_patterns`, split at their `.*` gaps. -/
def ssn_patterns : List (List String) :=
  [["ssn", "number"],
   ["social", "security", "number"],
   ["last", "four", "digits", "ssn"],
   ["last", "four", "digits", "of", "your", "ssn"]]

def health_domains : List String := [".gov", ".edu", "health.org", "medical.org"]

def official_claims : List String :=
  ["health services", "government", "bank", "official", "department"]

def suspicious_tlds : List String := [".tk", ".ml", ".ga", ".cf"]

/-! ## Layer 1: `Layer1DatabaseChecker` -/

/-- A processed email as produced by `EmailProcessor.process`: the keys
`'sender'`, `'subject'` and `'body'` are always present (extracted urls,
phones, metadata and the timestamp are not consumed by the functions modelled
here). -/
structure EmailData where
  sender : String
  subject : String
  body : String
deriving DecidableEq, Repr

/-- Return value of `check_spam_patterns`. -/
structure PatternResult where
  is_suspicious : Bool
  confidence : ℚ
  indicators : List String
deriving DecidableEq, Repr

/-- One `for x in items: if fires x: indicators.append(msg x); confidence =
max(confidence, c)` loop of `check_spam_patterns`, folded over the running
`(confidence, indicators)` accumulator. -/
def scanCheck (fires : α → Bool) (msg : α → String) (c : ℚ)
    (acc : ℚ × List String) (items : List α) : ℚ × List String :=
  items.foldl (fun a x => if fires x then (max a.1 c, a.2 ++ [msg x]) else a) acc

/-- Rebuild the textual form of a `.*`-joined pattern for indicator messages. -/
def patternStr (parts : List String) : String :=
  String.intercalate ".*" parts

/-- `full_content = f"{subject} {body}".lower()` of `check_spam_patterns`;
`subject` and `body` are already lowercased there, so the outer `.lower()` is
a no-op and lowering is applied once per character. -/
def full_content (e : EmailData) : List Char :=
  lowerData e.subject ++ [' '] ++ lowerData e.body

/-- `Layer1DatabaseChecker.check_spam_patterns` (lines 282–374). -/
def check_spam_patterns (e : EmailData) : PatternResult :=
  let sender := lowerData e.sender
  let subject := lowerData e.subject
  let body := lowerData e.body
  -- financial information requests (high priority): 0.95
  let a1 := scanCheck (fun t => pyIn (lowerData t) (full_content e))
      (fun t => "Requesting sensitive financial info: " ++ t) (mkRat 95 100) (0, []) financial_requests
  -- urgency indicators combined: two or more hits contribute 0.8
  let urgency_count := (urgency_indicators.filter (fun t => pyIn (lowerData t) (full_content e))).length
  let a2 := if urgency_count ≥ 2 then
      (max a1.1 (mkRat 8 10), a1.2 ++ ["Multiple urgency indicators detected: " ++ toString urgency_count])
    else a1
  -- suspicious phrases (exact matches): 0.9
  let a3 := scanCheck (fun p => pyIn (lowerData p) (full_content e))
      (fun p => "Suspicious phrase detected: " ++ p) (mkRat 9 10) a2 suspicious_phrases
  -- sender domain vs health-services content mismatch: 0.85
  let a4 := if (pyIn "health services".data (full_content e) || pyIn "public health".data (full_content e))
      && !(health_domains.any (fun d => pyIn d.data sender)) then
      (max a3.1 (mkRat 85 100), a3.2 ++ ["Impersonating health services from non-official domain"])
    else a3
  -- SSN-specific regexes: 0.95
  let a5 := scanCheck (fun p => reSearchP p (full_content e))
      (fun p => "SSN request detected: " ++ patternStr p) (mkRat 95 100) a4 ssn_patterns
  -- sender domain blocklist: 0.9
  let a6 := scanCheck (fun d => pyIn d.data sender)
      (fun d => "Suspicious sender domain: " ++ d) (mkRat 9 10) a5 sender_domains
  -- free email provider claiming to be an official organization: 0.8
  let a7 := if (pyIn "gmail.com".data sender || pyIn "yahoo.com".data sender
        || pyIn "outlook.com".data sender)
      && official_claims.any (fun cl => pyIn cl.data (full_content e)) then
      (max a6.1 (mkRat 8 10), a6.2 ++ ["Free email service claiming to be official organization"])
    else a6
  -- subject regexes: 0.8
  let a8 := scanCheck (fun p => reSearchP p subject)
      (fun p => "Suspicious subject pattern: " ++ patternStr p) (mkRat 8 10) a7 subject_patterns
  -- body regexes: 0.7
  let a9 := scanCheck (fun p => reSearchP p body)
      (fun p => "Suspicious body pattern: " ++ patternStr p) (mkRat 7 10) a8 body_patterns
  -- combination pattern (urgent + personal information): 0.9
  let a10 := if pyIn "urgent".data (full_content e) && pyIn "personal information".data (full_content e) then
      (max a9.1 (mkRat 9 10), a9.2 ++ ["Urgent personal information request - classic phishing"])
    else a9
  { is_suspicious := a10.2.length > 0, confidence := a10.1, indicators := a10.2 }

/-- Return value of `check_sender_reputation`. -/
structure RepResult where
  is_suspicious : Bool
  confidence : ℚ
  indicators : List String
deriving DecidableEq, Repr

/-- `Layer1DatabaseChecker.check_sender_reputation` (lines 376–405).  The
sender is used verbatim (not lowercased) as in the source. -/
def check_sender_reputation (e : EmailData) : RepResult :=
  let sender := e.sender.data
  let a1 : ℚ × List String :=
    if !(sender.contains '@') then ((mkRat 9 10), ["Invalid sender format"]) else (0, [])
  let domain := if sender.contains '@' then lastSplitAt '@' sender else []
  let a2 := scanCheck (fun tld => pyEndsWith domain tld.data)
      (fun tld => "Suspicious TLD: " ++ tld) (mkRat 7 10) a1 suspicious_tlds
  { is_suspicious := a2.2.length > 0, confidence := a2.1, indicators := a2.2 }

/-- Character class of the URL regex in `check_urls`: `[a-zA-Z]`, `[0-9]`, the
ASCII range `[$-_]` (which already contains `@ . & + %`, the digits and the
uppercase letters, so the explicit `@.&+` members and the `%hh` alternative of
the source regex are subsumed), and the explicit members `! * \ ( ) ,`. -/
def urlChar (c : Char) : Bool :=
  c.isAlpha || c.isDigit || ('$' ≤ c && c ≤ '_') || ['!', '*', '\\', '(', ')', ','].contains c

/-- `re.findall` for the URL regex `http[s]?://(…)+`: scan left to right; at
each position try `https://`, then — backtracking the optional `s` — `http://`;
a match then takes the maximal nonempty run of `urlChar`s, and scanning
resumes after the match. -/
def findUrlsFuel : Nat → List Char → List (List Char)
  | 0, _ => []
  | fuel + 1, l =>
    match l with
    | [] => []
    | _ :: tl =>
      if "https://".data.isPrefixOf l then
        let run := (l.drop 8).takeWhile urlChar
        if run.length > 0 then
          ("https://".data ++ run) :: findUrlsFuel fuel ((l.drop 8).drop run.length)
        else findUrlsFuel fuel tl
      else if "http://".data.isPrefixOf l then
        let run := (l.drop 7).takeWhile urlChar
        if run.length > 0 then
          ("http://".data ++ run) :: findUrlsFuel fuel ((l.drop 7).drop run.length)
        else findUrlsFuel fuel tl
      else findUrlsFuel fuel tl

/-- `findUrlsFuel` with enough fuel: every recursive step consumes at least
one character, so `l.length` steps reach the empty list and the fuel bound is
never hit. -/
def findUrls (l : List Char) : List (List Char) :=
  findUrlsFuel l.length l

/-- Return value of `check_urls`. -/
structure UrlResult where
  urls_found : List (List Char)
  suspicious_urls : List (List Char)
  indicators : List String
deriving DecidableEq, Repr

/-- `Layer1DatabaseChecker.check_urls` (lines 407–428); it receives the raw
(not lowercased) body. -/
def check_urls (email_body : List Char) : UrlResult :=
  let urls := findUrls email_body
  let res := urls.foldl (fun acc url =>
    suspicious_urls.foldl (fun a sh =>
      if pyIn sh.data url then (a.1 ++ [url], a.2 ++ ["URL shortener detected: " ++ sh]) else a)
      acc) (([] : List (List Char)), ([] : List String))
  { urls_found := urls, suspicious_urls := res.1, indicators := res.2 }

/-- A Layer 1 result dict.  Fresh results populate `checks_performed`,
`threat_indicators` and `databases_checked`; cache hits carry only status and
confidence (the stored indicator metadata is not restored by `check_cache`)
plus `cached := true`.  `processing_time` and `source` (constants or wall
clock) are not modelled. -/
structure Layer1Result where
  status : String
  confidence : ℚ
  checks_performed : List String := []
  threat_indicators : List String := []
  databases_checked : Nat := 0
  cached : Bool := false
deriving DecidableEq, Repr

/-- The cache-miss computation of `Layer1DatabaseChecker.check_email`
(lines 160–211).  Processed emails always carry a `'body'` key
(`EmailProcessor.process`), so the `'body' in email_data` guard is taken. -/
def checkEmailFresh (e : EmailData) : Layer1Result :=
  let r0 : Layer1Result := { status := "clean", confidence := mkRat 95 100 }
  let pattern_result := check_spam_patterns e
  let r1 := { r0 with checks_performed := r0.checks_performed ++ ["pattern_matching"] }
  let r2 := if pattern_result.is_suspicious then
      { r1 with
        status := "threat"
        confidence := pattern_result.confidence
        threat_indicators := r1.threat_indicators ++ pattern_result.indicators }
    else r1
  let reputation_result := check_sender_reputation e
  let r3 := { r2 with
      checks_performed := r2.checks_performed ++ ["sender_reputation"]
      databases_checked := r2.databases_checked + 1 }
  let r4 := if reputation_result.is_suspicious then
      { r3 with
        status := "threat"
        confidence := max r3.confidence reputation_result.confidence
        threat_indicators := r3.threat_indicators ++ reputation_result.indicators }
    else r3
  let url_result := check_urls e.body.data
  let r5 := { r4 with
      checks_performed := r4.checks_performed ++ ["url_scanning"]
      databases_checked := r4.databases_checked + 1 }
  if url_result.suspicious_urls.length > 0 then
    { r5 with
      status := "threat"
      confidence := max r5.confidence (mkRat 8 10)
      threat_indicators := r5.threat_indicators ++ url_result.indicators }
  else r5

/-- A row of the `spam_cache` table (primary key `email_hash` held in the
association list); `is_spam INTEGER` modelled as `Bool`, timestamps in
seconds. -/
structure CacheEntry where
  is_spam : Bool
  confidence : ℚ
  source : String
  timestamp : Nat
  metadata : List String
deriving DecidableEq, Repr

abbrev Cache := List (String × CacheEntry)

def cacheLookup (c : Cache) (h : String) : Option CacheEntry :=
  (c.find? (fun p => p.1 == h)).map (·.2)

/-- `INSERT OR REPLACE` keyed on the primary key `email_hash`. -/
def cacheUpsert (c : Cache) (h : String) (e : CacheEntry) : Cache :=
  (h, e) :: c.filter (fun p => p.1 ≠ h)

/-- `generate_email_hash`: md5 of `sender ++ subject`, modelled as the hashed
content itself (the code relies only on determinism of the digest). -/
def generate_email_hash (e : EmailData) : String := e.sender ++ e.subject

/-- `check_cache`: `SELECT … WHERE email_hash = ? AND datetime(timestamp) >
datetime('now', '-1 day')`.  With times in seconds the row is a hit iff
`now < timestamp + 86400`; otherwise the lookup behaves as if the row were
absent. -/
def check_cache (cache : Cache) (now : Nat) (email_hash : String) : Option Layer1Result :=
  match cacheLookup cache email_hash with
  | none => none
  | some entry =>
    if now < entry.timestamp + 86400 then
      some { status := if entry.is_spam then "threat" else "clean"
             confidence := entry.confidence
             cached := true }
    else none

/-- `cache_result`: upsert the fresh result under its hash
(`is_spam = 1 if result['status'] == 'threat' else 0`). -/
def cache_result (cache : Cache) (now : Nat) (email_hash : String) (r : Layer1Result) : Cache :=
  cacheUpsert cache email_hash
    { is_spam := r.status == "threat"
      confidence := r.confidence
      source := "layer1"
      timestamp := now
      metadata := r.threat_indicators }

/-- `Layer1DatabaseChecker.check_email`: consult the cache first; on a hit
return the cached result unchanged, on a miss run the checks and write the
result back. -/
def check_email (cache : Cache) (now : Nat) (e : EmailData) : Layer1Result × Cache :=
  let email_hash := generate_email_hash e
  match check_cache cache now email_hash with
  | some cached_result => (cached_result, cache)
  | none =>
    let result := checkEmailFresh e
    (result, cache_result cache now email_hash result)

/-! ## Layer 3: `Layer3DetectiveAgent` and its RAG database state -/

/-- A row of `conversation_history` as returned by
`RAGDatabase.get_conversation_history`: a dict with the keys `subject`,
`body_snippet`, `timestamp`, `sentiment`, `is_reply` — in particular it has
no `'body'` key. -/
structure HistEntry where
  subject : String
  body_snippet : String
  timestamp : Nat
  sentiment : String
  is_reply : Bool
deriving DecidableEq, Repr

/-- `analyze_email_tone(email_data)` reads `email_data.get('body', '')`.
The argument models the dict's `'body'` entry: `some b` when the key is
present, `none` when it is absent (then the default `''` is analyzed). -/
def analyze_email_tone (body? : Option String) : String :=
  let body := lowerData (body?.getD "")
  if ["urgent", "immediate", "deadline"].any (fun w => pyIn w.data body) then "urgent"
  else if ["please", "kindly", "thank you"].any (fun w => pyIn w.data body) then "polite"
  else if ["must", "required", "mandatory"].any (fun w => pyIn w.data body) then "demanding"
  else "neutral"

/-- `analyze_historical_tone` (lines 476–491).  The history dicts produced by
`get_conversation_history` carry their snippet under `'body_snippet'` and have
no `'body'` key, so each entry is analyzed as `analyze_email_tone` of an
absent body.  `conversation_history[-3:]` keeps the LAST three entries of the
list (the fetched list is ordered newest first, so these are the oldest three
fetched).  `max(tone_counts, key=tone_counts.get)` returns the first key with
maximal count in dict insertion order urgent, polite, demanding, neutral;
`mode_tone` is that tie-breaking maximum. -/
def mode_tone (tones : List String) : String :=
  let cu := (tones.filter (fun t => t == "urgent")).length
  let cp := (tones.filter (fun t => t == "polite")).length
  let cd := (tones.filter (fun t => t == "demanding")).length
  let cn := (tones.filter (fun t => t == "neutral")).length
  if cu ≥ cp ∧ cu ≥ cd ∧ cu ≥ cn then "urgent"
  else if cp ≥ cd ∧ cp ≥ cn then "polite"
  else if cd ≥ cn then "demanding"
  else "neutral"

/-- The entry selection of `analyze_historical_tone`: tones of every entry of
`conversation_history[-3:] if len(conversation_history) >= 3 else
conversation_history`, each read through the missing `'body'` key. -/
def analyze_historical_tone (conversation_history : List HistEntry) : String :=
  if conversation_history.isEmpty then "unknown"
  else
    let recent_emails :=
      if conversation_history.length ≥ 3 then
        conversation_history.drop (conversation_history.length - 3)
      else conversation_history
    mode_tone (recent_emails.map (fun _ => analyze_email_tone none))

/-- Return value of `analyze_conversation_context`. -/
structure ConversationAnalysis where
  is_conversation : Bool
  indicators : List String
  conversation_length : Nat
deriving DecidableEq, Repr

/-- `analyze_conversation_context` (lines 275–309).  `conversation_history`
models the list returned by `rag_db.get_conversation_history(user_id,
sender)` (newest first, at most 10 rows).  Note the reply/forward prefix test
runs on the raw, not lowercased, subject. -/
def analyze_conversation_context (e : EmailData) (conversation_history : List HistEntry) :
    ConversationAnalysis :=
  let subject := e.subject.data
  let i1 : List String :=
    if pyStartsWith subject "re:".data || pyStartsWith subject "fwd:".data
        || pyStartsWith subject "fw:".data then
      ["Reply or forward pattern detected"]
    else []
  let i2 :=
    if !conversation_history.isEmpty then
      let i := i1 ++
        ["Found " ++ toString conversation_history.length ++ " previous emails from sender"]
      let recent_tone := analyze_email_tone (some e.body)
      let historical_tone := analyze_historical_tone conversation_history
      if recent_tone ≠ historical_tone then
        i ++ ["Tone shift detected - possible account compromise"]
      else i
    else i1
  { is_conversation := i2.length > 0
    indicators := i2
    conversation_length := conversation_history.length }

/-- Parsed social-engineering analysis (from `parse_gemini_response` or
`fallback_social_engineering_analysis`): a nonnegative integer score and a
tactic list. -/
structure SEAnalysis where
  score : Nat
  tactics : List String
deriving DecidableEq, Repr

/-- Return value of `detect_impersonation`. -/
structure ImpersonationAnalysis where
  risk_level : String
  indicators : List String
deriving DecidableEq, Repr

/-- Return value of `generate_final_assessment`. -/
structure Assessment where
  verdict : String
  threat_level : String
  confidence : ℚ
  total_score : Nat
  analysis : String
  recommendation : String
  personal_relevance : String
deriving DecidableEq, Repr

/-- `generate_final_assessment` (lines 311–378), happy path. -/
def generate_final_assessment (se_analysis : SEAnalysis)
    (impersonation_analysis : ImpersonationAnalysis)
    (conversation_analysis : ConversationAnalysis) : Assessment :=
  let se_score := se_analysis.score
  let impersonation_risk := impersonation_analysis.risk_level
  let conversation_risk := conversation_analysis.indicators.length
  let total_score := se_score
    + (if impersonation_risk = "high" then 30
       else if impersonation_risk = "medium" then 15 else 0)
    + conversation_risk * 10
  let vlc : String × String × ℚ :=
    if total_score ≥ 80 then ("threat", "high", mkRat 9 10)
    else if total_score ≥ 60 then ("suspicious", "medium", mkRat 75 100)
    else if total_score ≥ 40 then ("suspicious", "low", mkRat 6 10)
    else ("safe", "low", mkRat 8 10)
  let analysis_parts : List String :=
    (if !se_analysis.tactics.isEmpty then
      ["Social engineering tactics detected: " ++ String.intercalate ", " se_analysis.tactics]
     else []) ++
    (if !impersonation_analysis.indicators.isEmpty then
      ["Impersonation risks: " ++ String.intercalate ", " impersonation_analysis.indicators]
     else []) ++
    (if !conversation_analysis.indicators.isEmpty then
      ["Conversation anomalies: " ++ String.intercalate ", " conversation_analysis.indicators]
     else [])
  let detailed_analysis :=
    if !analysis_parts.isEmpty then String.intercalate ". " analysis_parts
    else "No significant threats detected."
  let recommendation :=
    if vlc.1 = "threat" then
      "DO NOT INTERACT with this email. Delete immediately and report as phishing."
    else if vlc.1 = "suspicious" then
      "Exercise extreme caution. Verify sender through alternative communication channel before taking any action."
    else
      "Email appears legitimate, but always verify requests for sensitive information."
  { verdict := vlc.1
    threat_level := vlc.2.1
    confidence := vlc.2.2
    total_score := total_score
    analysis := detailed_analysis
    recommendation := recommendation
    personal_relevance :=
      if total_score > 60 then "high" else if total_score > 30 then "medium" else "low" }

/-- A row of the `suspect_info` table. -/
structure SuspectRecord where
  sender_email : String
  sender_name : String
  tactics_used : List String
  threat_level : String
  target_demographics : List String
  success_indicators : List String
  email_metadata : EmailData
  first_seen : Nat
  last_seen : Nat
  frequency_count : Nat
deriving DecidableEq, Repr

/-- The `suspect_info` dict handed to `RAGDatabase.store_suspect_info`
(an open dict: absent keys are `none` and fall back to the `.get` defaults). -/
structure SuspectInfo where
  sender : Option String := none
  sender_name : Option String := none
  tactics_used : List String := []
  threat_level : Option String := none
  target_demographics : List String := []
  success_indicators : List String := []
deriving DecidableEq, Repr

/-- Apply `f` to the first element satisfying `p` (an SQL `UPDATE … WHERE id =
?` against the row previously selected by sender). -/
def updateFirst (p : α → Bool) (f : α → α) : List α → List α
  | [] => []
  | x :: xs => if p x then f x :: xs else x :: updateFirst p f xs

/-- `RAGDatabase.store_suspect_info` (lines 296–378): select the existing row
by `sender_email`; update it (incrementing `frequency_count`, refreshing
`last_seen`) if present, else insert a fresh row with `frequency_count = 1`. -/
def store_suspect_info (table : List SuspectRecord) (now : Nat)
    (suspect_info : SuspectInfo) (email_metadata : EmailData) : List SuspectRecord :=
  let sender_email := suspect_info.sender.getD email_metadata.sender
  let sender_name := suspect_info.sender_name.getD ""
  match table.find? (fun r => r.sender_email == sender_email) with
  | some _ =>
    updateFirst (fun r => r.sender_email == sender_email)
      (fun r =>
        { r with
          tactics_used := suspect_info.tactics_used
          threat_level := suspect_info.threat_level.getD "unknown"
          last_seen := now
          frequency_count := r.frequency_count + 1
          email_metadata := email_metadata })
      table
  | none =>
    table ++
      [{ sender_email := sender_email
         sender_name := sender_name
         tactics_used := suspect_info.tactics_used
         threat_level := suspect_info.threat_level.getD "unknown"
         target_demographics := suspect_info.target_demographics
         success_indicators := suspect_info.success_indicators
         email_metadata := email_metadata
         first_seen := now
         last_seen := now
         frequency_count := 1 }]

/-- A value of the in-process `active_conversations` dict. -/
structure ConversationSession where
  user_id : String
  sender : String
  start_time : Nat
  status : String
  timeout : Nat
deriving DecidableEq, Repr

/-- `start_conversation_monitoring` (lines 493–509): a dict assignment keyed
by `f"{user_id}_{sender}"`.  The two `datetime.utcnow()` reads inside the
assignment are modelled by the operation's single `now`. -/
def start_conversation_monitoring (active : List (String × ConversationSession))
    (now : Nat) (e : EmailData) (user_id : String) : List (String × ConversationSession) :=
  let conversation_id := user_id ++ "_" ++ e.sender
  (conversation_id,
    { user_id := user_id
      sender := e.sender
      start_time := now
      status := "monitoring"
      timeout := now + 10 * 3600 }) :: active.filter (fun p => p.1 ≠ conversation_id)

/-- The mutable state touched by `Layer3DetectiveAgent.analyze_email`: the
`suspect_info` table of the RAG database and the in-process
`active_conversations` dict. -/
structure Layer3State where
  suspects : List SuspectRecord
  active_conversations : List (String × ConversationSession)
deriving DecidableEq, Repr

/-- The result dict of `analyze_email` (happy path); `processing_time` is not
modelled. -/
structure Layer3Result where
  verdict : String
  threat_level : String
  confidence : ℚ
  social_engineering_score : Nat
  tactics_identified : List String
  impersonation_risk : String
  personal_context : String
  detailed_analysis : String
  recommended_action : String
deriving DecidableEq, Repr

/-- `Layer3DetectiveAgent.analyze_email` (lines 120–193), happy path.  The
social-engineering analysis delegates to the external Gemini service (or its
keyword fallback) and the impersonation analysis reads the user profile from
the RAG database; both are inputs here.  `conversation_history` models
`rag_db.get_conversation_history(user_id, sender)` (newest first). -/
def analyze_email (st : Layer3State) (now : Nat) (e : EmailData) (user_id : String)
    (se_analysis : SEAnalysis) (impersonation_analysis : ImpersonationAnalysis)
    (conversation_history : List HistEntry) : Layer3Result × Layer3State :=
  let conversation_analysis := analyze_conversation_context e conversation_history
  let final_assessment :=
    generate_final_assessment se_analysis impersonation_analysis conversation_analysis
  let result : Layer3Result :=
    { verdict := final_assessment.verdict
      threat_level := final_assessment.threat_level
      confidence := final_assessment.confidence
      social_engineering_score := se_analysis.score
      tactics_identified := se_analysis.tactics
      impersonation_risk := impersonation_analysis.risk_level
      personal_context := final_assessment.personal_relevance
      detailed_analysis := final_assessment.analysis
      recommended_action := final_assessment.recommendation }
  -- store_analysis_results → post_suspect_info → rag_db.store_suspect_info
  let suspect_info : SuspectInfo :=
    { sender := some e.sender
      tactics_used := result.tactics_identified
      threat_level := some result.threat_level }
  let st1 := { st with suspects := store_suspect_info st.suspects now suspect_info e }
  let st2 :=
    if result.verdict = "threat" ∨ result.verdict = "suspicious" then
      { st1 with active_conversations :=
          start_conversation_monitoring st1.active_conversations now e user_id }
    else st1
  (result, st2)

/-! ## Orchestrator: `PhishGuardBackend.process_email_scan` (app.py) -/

/-- Output of Layer 2 (`Layer2ModelClassifier.classify_email`, an external
classifier adapter whose module is not part of the embedded core); the
orchestrator consumes only its `status` and `confidence`. -/
structure Layer2Result where
  status : String
  confidence : ℚ
deriving DecidableEq, Repr

/-- The scan-result dict built by `process_email_scan`.  The `layers` dict is
modelled by the three optional per-layer entries.  The `timestamp` string is
not modelled separately from `ts` below. -/
structure ScanResult where
  scan_id : String
  user_id : String
  email_data : EmailData
  layer1 : Option Layer1Result := none
  layer2 : Option Layer2Result := none
  layer3 : Option Layer3Result := none
  final_verdict : String
  threat_level : String
  confidence_score : ℚ
  processing_time : ℚ
  error : Option String := none
deriving DecidableEq, Repr

/-- `f"scan_{datetime.utcnow().strftime('%Y%m%d_%H%M%S')}_{user_id}"`; `ts`
is the formatted (second-resolution) timestamp. -/
def mkScanId (ts user_id : String) : String := "scan_" ++ ts ++ "_" ++ user_id

/-- A row of the `scan_history` table (`scan_id` is UNIQUE); columns not
needed by any claim (`email_date`, json-encoded layer statuses, timestamps)
are omitted. -/
structure ScanRow where
  scan_id : String
  user_id : String
  email_sender : String
  email_subject : String
  final_verdict : String
  threat_level : String
  confidence_score : ℚ
  processing_time : ℚ
deriving DecidableEq, Repr

/-- Column extraction performed by `RAGDatabase.store_scan_result`. -/
def toScanRow (r : ScanResult) : ScanRow :=
  { scan_id := r.scan_id
    user_id := r.user_id
    email_sender := r.email_data.sender
    email_subject := r.email_data.subject
    final_verdict := r.final_verdict
    threat_level := r.threat_level
    confidence_score := r.confidence_score
    processing_time := r.processing_time }

/-- `RAGDatabase.store_scan_result`: `INSERT OR REPLACE INTO scan_history`
with `scan_id` UNIQUE — an existing row with the same `scan_id` is replaced,
otherwise the row is inserted. -/
def store_scan_result (hist : List ScanRow) (r : ScanResult) : List ScanRow :=
  toScanRow r :: hist.filter (fun x => x.scan_id ≠ r.scan_id)

/-- `finalize_scan_result` (lines 447–466): record the processing time, then
attempt to persist the ScanRecord; a persistence failure (`store_fails`,
modelling `store_scan_result` raising) is logged and leaves the returned
result unchanged. -/
def finalize_scan_result (hist : List ScanRow) (r : ScanResult) (processing_time : ℚ)
    (store_fails : Bool) : ScanResult × List ScanRow :=
  let r2 := { r with processing_time := processing_time }
  (r2, if store_fails then hist else store_scan_result hist r2)

/-- `process_email_scan` (lines 374–445).  The three layer invocations are
external calls from the orchestrator's standpoint and are passed in as
`Except` values: `.ok` models a normal return and `.error msg` models the
call raising an exception with message `msg`, caught by the handler at line
441 (the preprocessing call catches its own failures internally and always
returns).  `ts = datetime.utcnow().strftime('%Y%m%d_%H%M%S')` is the
second-resolution timestamp read at entry; `processing_time` is the elapsed
wall-clock duration measured by `finalize_scan_result`. -/
def process_email_scan (hist : List ScanRow) (ts : String) (email_data : EmailData)
    (user_id : String) (layer1 : Except String Layer1Result)
    (layer2 : Except String Layer2Result) (layer3 : Except String Layer3Result)
    (processing_time : ℚ) (store_fails : Bool) : ScanResult × List ScanRow :=
  let scan_result : ScanResult :=
    { scan_id := mkScanId ts user_id
      user_id := user_id
      email_data := email_data
      final_verdict := "analyzing"
      threat_level := "unknown"
      confidence_score := 0
      processing_time := 0 }
  match layer1 with
  | .error msg =>
    finalize_scan_result hist
      { scan_result with final_verdict := "error", error := some msg }
      processing_time store_fails
  | .ok layer1_result =>
    let s1 := { scan_result with layer1 := some layer1_result }
    if layer1_result.status = "threat" then
      finalize_scan_result hist
        { s1 with
          final_verdict := "threat"
          threat_level := "high"
          confidence_score := layer1_result.confidence }
        processing_time store_fails
    else
      match layer2 with
      | .error msg =>
        finalize_scan_result hist
          { s1 with final_verdict := "error", error := some msg }
          processing_time store_fails
      | .ok layer2_result =>
        let s2 := { s1 with layer2 := some layer2_result }
        if layer2_result.status = "benign" ∧ layer2_result.confidence > mkRat 8 10 then
          finalize_scan_result hist
            { s2 with
              final_verdict := "safe"
              threat_level := "low"
              confidence_score := layer2_result.confidence }
            processing_time store_fails
        else
          match layer3 with
          | .error msg =>
            finalize_scan_result hist
              { s2 with final_verdict := "error", error := some msg }
              processing_time store_fails
          | .ok layer3_result =>
            let s3 := { s2 with layer3 := some layer3_result }
            finalize_scan_result hist
              { s3 with
                final_verdict := layer3_result.verdict
                threat_level := layer3_result.threat_level
                confidence_score := layer3_result.confidence }
              processing_time store_fails

/-! ## Concrete inputs used by witnesses and counterexamples -/

/-- An email whose only firing Layer 1 check is the 0.7 body regex
`click.*link.*verify`: no financial/urgency/phrase terms, an ordinary sender
with a benign domain, no URLs. -/
def emailBodyPatternOnly : EmailData :=
  { sender := "alice@example.com", subject := "hello", body := "click this link to verify" }

/-- An email containing the financial-request term `bank account`. -/
def emailFinancial : EmailData :=
  { sender := "alice@example.com"
    subject := "question"
    body := "please send your bank account details" }

/-- First email of a cache-noninterference pair. -/
def emailCacheA : EmailData :=
  { sender := "carol@example.com", subject := "minutes", body := "see the agenda" }

/-- Second email of the pair: same sender and subject, different body. -/
def emailCacheB : EmailData :=
  { sender := "carol@example.com", subject := "minutes", body := "send your ssn now" }

/-- A threat result as produced by a Layer 1 fresh check. -/
def threatL1 : Layer1Result :=
  { status := "threat", confidence := mkRat 95 100 }

/-- A clean Layer 1 result. -/
def cleanL1 : Layer1Result :=
  { status := "clean", confidence := mkRat 95 100 }

/-- A cache row written at time 0. -/
def entryAt0 : CacheEntry :=
  { is_spam := true, confidence := mkRat 9 10, source := "layer1", timestamp := 0, metadata := [] }

/-- A confidently benign Layer 2 result. -/
def benignL2 : Layer2Result := { status := "benign", confidence := mkRat 9 10 }

/-- A Layer 3 result used as an inert placeholder argument. -/
def safeL3 : Layer3Result :=
  { verdict := "safe"
    threat_level := "low"
    confidence := mkRat 8 10
    social_engineering_score := 0
    tactics_identified := []
    impersonation_risk := "low"
    personal_context := "low"
    detailed_analysis := ""
    recommended_action := "" }

/-- A single prior conversation-history entry whose snippet contains an
urgency keyword. -/
def histOneUrgent : List HistEntry :=
  [{ subject := "hi"
     body_snippet := "urgent request"
     timestamp := 0
     sentiment := "neutral"
     is_reply := false }]

/-- An incoming email whose body carries the `urgent` tone. -/
def emailUrgentTone : EmailData :=
  { sender := "bob@example.com", subject := "hello", body := "this is urgent" }

/-- A social-engineering analysis with score 90 (forces a `threat` verdict). -/
def seHigh : SEAnalysis := { score := 90, tactics := [] }

/-- A low-risk impersonation analysis. -/
def impLow : ImpersonationAnalysis := { risk_level := "low", indicators := [] }

/-- An empty Layer 3 state (no suspects, no active conversations). -/
def emptyL3State : Layer3State := { suspects := [], active_conversations := [] }

/-- A finalized scan result used to exercise `store_scan_result`. -/
def sampleScanResult : ScanResult :=
  { scan_id := mkScanId "20261012_120000" "user1"
    user_id := "user1"
    email_data := emailCacheA
    final_verdict := "safe"
    threat_level := "low"
    confidence_score := mkRat 9 10
    processing_time := 0 }

/-! ## Verified properties -/

/-- C1: Layer 3's final assessment computes `total = se_score +
(30 if impersonation risk is high else 15 if medium else 0) +
10 * (number of conversation indicators)` and maps `total` exactly to the
verdict: `total ≥ 80 →` threat/high/0.90; `60 ≤ total ≤ 79 →`
suspicious/medium/0.75; `40 ≤ total ≤ 59 →` suspicious/low/0.60;
`total ≤ 39 →` safe/low/0.80 — so the boundary values 80, 79, 60, 59, 40, 39
fall exactly as listed. -/
theorem C1_final_assessment (se : SEAnalysis) (imp : ImpersonationAnalysis)
    (conv : ConversationAnalysis) (total : ℕ)
    (htotal : total = se.score
      + (if imp.risk_level = "high" then 30 else if imp.risk_level = "medium" then 15 else 0)
      + 10 * conv.indicators.length) :
    (generate_final_assessment se imp conv).total_score = total ∧
    (80 ≤ total →
      (generate_final_assessment se imp conv).verdict = "threat" ∧
      (generate_final_assessment se imp conv).threat_level = "high" ∧
      (generate_final_assessment se imp conv).confidence = mkRat 90 100) ∧
    (60 ≤ total ∧ total ≤ 79 →
      (generate_final_assessment se imp conv).verdict = "suspicious" ∧
      (generate_final_assessment se imp conv).threat_level = "medium" ∧
      (generate_final_assessment se imp conv).confidence = mkRat 75 100) ∧
    (40 ≤ total ∧ total ≤ 59 →
      (generate_final_assessment se imp conv).verdict = "suspicious" ∧
      (generate_final_assessment se imp conv).threat_level = "low" ∧
      (generate_final_assessment se imp conv).confidence = mkRat 60 100) ∧
    (total ≤ 39 →
      (generate_final_assessment se imp conv).verdict = "safe" ∧
      (generate_final_assessment se imp conv).threat_level = "low" ∧
      (generate_final_assessment se imp conv).confidence = mkRat 80 100) := by
  subst htotal
  simp only [generate_final_assessment]
  refine ⟨by omega, ?_, ?_, ?_, ?_⟩ <;> intro hh <;>
    split_ifs at hh ⊢ <;>
      first
        | exact ⟨rfl, rfl, by decide⟩
        | omega

/-- Witness for C1 at concrete inputs on each side of every boundary:
the scores 80, 79, 60, 59, 40 and 39 (built from concrete sub-analyses)
produce exactly the listed verdict/threat-level/confidence triples. -/
theorem C1_final_assessment_witness :
    (generate_final_assessment ⟨50, []⟩ ⟨"high", []⟩ ⟨false, [], 0⟩).verdict = "threat" ∧
    (generate_final_assessment ⟨49, []⟩ ⟨"high", []⟩ ⟨false, [], 0⟩).verdict = "suspicious" ∧
    (generate_final_assessment ⟨49, []⟩ ⟨"high", []⟩ ⟨false, [], 0⟩).threat_level = "medium" ∧
    (generate_final_assessment ⟨45, []⟩ ⟨"medium", []⟩ ⟨false, [], 0⟩).verdict = "suspicious" ∧
    (generate_final_assessment ⟨44, []⟩ ⟨"medium", []⟩ ⟨false, [], 0⟩).threat_level = "low" ∧
    (generate_final_assessment ⟨30, []⟩ ⟨"low", []⟩ ⟨false, ["a"], 1⟩).verdict = "suspicious" ∧
    (generate_final_assessment ⟨29, []⟩ ⟨"low", []⟩ ⟨false, ["a"], 1⟩).verdict = "safe" := by
  refine ⟨?_, ?_, ?_, ?_, ?_, ?_, ?_⟩
  · exact ((C1_final_assessment ⟨50, []⟩ ⟨"high", []⟩ ⟨false, [], 0⟩ 80 (by decide)).2.1
      (by decide)).1
  · exact ((C1_final_assessment ⟨49, []⟩ ⟨"high", []⟩ ⟨false, [], 0⟩ 79 (by decide)).2.2.1
      (by decide)).1
  · exact ((C1_final_assessment ⟨49, []⟩ ⟨"high", []⟩ ⟨false, [], 0⟩ 79 (by decide)).2.2.1
      (by decide)).2.1
  · exact ((C1_final_assessment ⟨45, []⟩ ⟨"medium", []⟩ ⟨false, [], 0⟩ 60 (by decide)).2.2.1
      (by decide)).1
  · exact ((C1_final_assessment ⟨44, []⟩ ⟨"medium", []⟩ ⟨false, [], 0⟩ 59 (by decide)).2.2.2.1
      (by decide)).2.1
  · exact ((C1_final_assessment ⟨30, []⟩ ⟨"low", []⟩ ⟨false, ["a"], 1⟩ 40 (by decide)).2.2.2.1
      (by decide)).1
  · exact ((C1_final_assessment ⟨29, []⟩ ⟨"low", []⟩ ⟨false, ["a"], 1⟩ 39 (by decide)).2.2.2.2
      (by decide)).1

/-- The running confidence of a `check_spam_patterns` loop never decreases. -/
theorem scanCheck_fst_le (fires : α → Bool) (msg : α → String) (c : ℚ)
    (acc : ℚ × List String) (items : List α) :
    acc.1 ≤ (scanCheck fires msg c acc items).1 := by
  induction items generalizing acc with
  | nil => simp [scanCheck]
  | cons x xs ih =>
    simp only [scanCheck, List.foldl_cons] at *
    by_cases h : fires x
    · simpa only [h, if_true] using le_trans (le_max_left _ _) (ih _)
    · simpa only [h, if_false] using ih _

/-- If some loop item fires, the loop's confidence contribution is reached. -/
theorem scanCheck_fired (fires : α → Bool) (msg : α → String) (c : ℚ)
    (acc : ℚ × List String) (items : List α) (x : α)
    (hx : x ∈ items) (hf : fires x = true) :
    c ≤ (scanCheck fires msg c acc items).1 := by
  induction items generalizing acc with
  | nil => cases hx
  | cons y ys ih =>
    simp only [scanCheck, List.foldl_cons] at *
    rcases List.mem_cons.mp hx with rfl | hx
    · simpa only [hf, if_true] using le_trans (le_max_right _ _) (scanCheck_fst_le _ _ _ _ _)
    · exact ih _ hx

/-- A `check_spam_patterns` loop only ever appends to the indicator list. -/
theorem scanCheck_snd_append (fires : α → Bool) (msg : α → String) (c : ℚ)
    (acc : ℚ × List String) (items : List α) :
    ∃ l, (scanCheck fires msg c acc items).2 = acc.2 ++ l := by
  induction items generalizing acc with
  | nil => exact ⟨[], by simp [scanCheck]⟩
  | cons x xs ih =>
    simp only [scanCheck, List.foldl_cons] at *
    by_cases h : fires x
    · simp only [h, if_true]
      obtain ⟨l, hl⟩ := ih (max acc.1 c, acc.2 ++ [msg x])
      exact ⟨[msg x] ++ l, by rw [hl]; simp⟩
    · simpa only [h, if_false] using ih acc

/-- If some loop item fires, the indicator list ends up nonempty. -/
theorem scanCheck_fired_snd_ne_nil (fires : α → Bool) (msg : α → String) (c : ℚ)
    (acc : ℚ × List String) (items : List α) (x : α)
    (hx : x ∈ items) (hf : fires x = true) :
    (scanCheck fires msg c acc items).2 ≠ [] := by
  induction items generalizing acc with
  | nil => cases hx
  | cons y ys ih =>
    simp only [scanCheck, List.foldl_cons] at *
    rcases List.mem_cons.mp hx with rfl | hx
    · simp only [hf, if_true]
      obtain ⟨l, hl⟩ := scanCheck_snd_append fires msg c (max acc.1 c, acc.2 ++ [msg x]) ys
      simp only [scanCheck] at hl
      simp [hl]
    · exact ih _ hx

/-- One single-condition update step of `check_spam_patterns` never decreases
the confidence. -/
theorem iteStep_fst_le (cond : Prop) [Decidable cond] (acc : ℚ × List String)
    (c : ℚ) (m : String) :
    acc.1 ≤ (if cond then (max acc.1 c, acc.2 ++ [m]) else acc).1 := by
  split
  · exact le_max_left _ _
  · exact le_refl _

/-- One single-condition update step only ever appends to the indicators. -/
theorem iteStep_snd_append (cond : Prop) [Decidable cond] (acc : ℚ × List String)
    (c : ℚ) (m : String) :
    ∃ l, (if cond then (max acc.1 c, acc.2 ++ [m]) else acc).2 = acc.2 ++ l := by
  split
  · exact ⟨[m], rfl⟩
  · exact ⟨[], (List.append_nil _).symm⟩

/-- A list that extends a nonempty list by appending is nonempty. -/
theorem sndNeNilOfAppend (a b : List String) (h : ∃ l, b = a ++ l) (ha : a ≠ []) :
    b ≠ [] := by
  rcases h with ⟨l, rfl⟩
  simp [ha]

/-- A fired financial-request term forces `check_spam_patterns` to report a
suspicious email with confidence at least 0.95. -/
theorem check_spam_patterns_financial (e : EmailData) (t : String)
    (ht : t ∈ financial_requests)
    (hmem : pyIn (lowerData t) (full_content e) = true) :
    (check_spam_patterns e).is_suspicious = true ∧
    mkRat 95 100 ≤ (check_spam_patterns e).confidence := by
  simp only [check_spam_patterns]
  constructor
  · rw [decide_eq_true_eq, gt_iff_lt, List.length_pos]
    refine sndNeNilOfAppend _ _ (iteStep_snd_append _ _ _ _) ?_
    refine sndNeNilOfAppend _ _ (scanCheck_snd_append _ _ _ _ _) ?_
    refine sndNeNilOfAppend _ _ (scanCheck_snd_append _ _ _ _ _) ?_
    refine sndNeNilOfAppend _ _ (iteStep_snd_append _ _ _ _) ?_
    refine sndNeNilOfAppend _ _ (scanCheck_snd_append _ _ _ _ _) ?_
    refine sndNeNilOfAppend _ _ (scanCheck_snd_append _ _ _ _ _) ?_
    refine sndNeNilOfAppend _ _ (iteStep_snd_append _ _ _ _) ?_
    refine sndNeNilOfAppend _ _ (scanCheck_snd_append _ _ _ _ _) ?_
    refine sndNeNilOfAppend _ _ (iteStep_snd_append _ _ _ _) ?_
    exact scanCheck_fired_snd_ne_nil _ _ _ _ _ t ht hmem
  · refine le_trans ?_ (iteStep_fst_le _ _ _ _)
    refine le_trans ?_ (scanCheck_fst_le _ _ _ _ _)
    refine le_trans ?_ (scanCheck_fst_le _ _ _ _ _)
    refine le_trans ?_ (iteStep_fst_le _ _ _ _)
    refine le_trans ?_ (scanCheck_fst_le _ _ _ _ _)
    refine le_trans ?_ (scanCheck_fst_le _ _ _ _ _)
    refine le_trans ?_ (iteStep_fst_le _ _ _ _)
    refine le_trans ?_ (scanCheck_fst_le _ _ _ _ _)
    refine le_trans ?_ (iteStep_fst_le _ _ _ _)
    exact scanCheck_fired _ _ _ _ _ t ht hmem


/-- On a cache miss the fresh Layer 1 result is returned. -/
theorem check_email_miss (cache : Cache) (now : Nat) (e : EmailData)
    (hmiss : check_cache cache now (generate_email_hash e) = none) :
    check_email cache now e =
      (checkEmailFresh e,
       cache_result cache now (generate_email_hash e) (checkEmailFresh e)) := by
  simp only [check_email, hmiss]

set_option maxHeartbeats 1000000 in
/-- C3: for every email whose lowercased subject+body contains a
financial-request term (ssn, social security, bank account, credit card,
routing number, account number, pin number), Layer 1's `check_email` on a
cache miss returns status `threat` with confidence at least 0.95. -/
theorem C3_financial_term_threat (cache : Cache) (now : Nat) (e : EmailData)
    (t : String) (ht : t ∈ financial_requests)
    (hmem : pyIn (lowerData t) (full_content e) = true)
    (hmiss : check_cache cache now (generate_email_hash e) = none) :
    (check_email cache now e).1.status = "threat" ∧
    mkRat 95 100 ≤ (check_email cache now e).1.confidence := by
  obtain ⟨hsusp, hconf⟩ := check_spam_patterns_financial e t ht hmem
  rw [check_email_miss cache now e hmiss]
  simp only [checkEmailFresh, hsusp, if_true]
  split_ifs with h1 h2 h2
  · exact ⟨rfl, le_trans (le_trans hconf (le_max_left _ _)) (le_max_left _ _)⟩
  · exact ⟨rfl, le_trans hconf (le_max_left _ _)⟩
  · exact ⟨rfl, le_trans hconf (le_max_left _ _)⟩
  · exact ⟨rfl, hconf⟩

/-- Witness for C3: the concrete email `emailFinancial` (its body contains
`bank account`) scanned against an empty cache at time 0. -/
theorem C3_financial_term_threat_witness :
    (check_email [] 0 emailFinancial).1.status = "threat" ∧
    mkRat 95 100 ≤ (check_email [] 0 emailFinancial).1.confidence :=
  C3_financial_term_threat [] 0 emailFinancial "bank account" (by decide) (by decide) rfl

/-- C4 counterexample: on `emailBodyPatternOnly` the only fired check is the
0.7 body regex; `check_email` on a cache miss (empty cache) reports
confidence 0.7, strictly below 0.95 — so the claim that the confidence is
never lowered beneath its 0.95 starting value is false. -/
theorem C4_counterexample :
    (check_spam_patterns emailBodyPatternOnly).is_suspicious = true ∧
    (check_email [] 0 emailBodyPatternOnly).1.status = "threat" ∧
    (check_email [] 0 emailBodyPatternOnly).1.confidence = mkRat 7 10 ∧
    ¬ mkRat 95 100 ≤ (check_email [] 0 emailBodyPatternOnly).1.confidence := by
  decide

set_option maxHeartbeats 1000000 in
/-- C4 amended: on a cache miss the confidence starts at 0.95, but when the
pattern check fires it is REPLACED by the pattern check's own confidence
(which can be lower, e.g. 0.7 for a body-regex-only match); only the
reputation and URL contributions are combined with `max` afterwards.  When
neither of those fires, the reported confidence is exactly the pattern
check's confidence and the status is `threat`. -/
theorem C4_confidence_assignment (cache : Cache) (now : Nat) (e : EmailData)
    (hmiss : check_cache cache now (generate_email_hash e) = none)
    (hp : (check_spam_patterns e).is_suspicious = true)
    (hr : (check_sender_reputation e).is_suspicious = false)
    (hu : (check_urls e.body.data).suspicious_urls = []) :
    (check_email cache now e).1.status = "threat" ∧
    (check_email cache now e).1.confidence = (check_spam_patterns e).confidence := by
  rw [check_email_miss cache now e hmiss]
  simp only [checkEmailFresh, hp, hr, hu, if_true, Bool.false_eq_true, if_false,
    List.length_nil, gt_iff_lt, lt_self_iff_false]
  exact ⟨trivial, trivial⟩

/-- Witness for C4 amended: `emailBodyPatternOnly` against an empty cache;
the reported confidence equals the pattern confidence (0.7). -/
theorem C4_confidence_assignment_witness :
    (check_email [] 0 emailBodyPatternOnly).1.status = "threat" ∧
    (check_email [] 0 emailBodyPatternOnly).1.confidence =
      (check_spam_patterns emailBodyPatternOnly).confidence :=
  C4_confidence_assignment [] 0 emailBodyPatternOnly rfl (by decide) (by decide) (by decide)

/-- C5: cache round-trip and TTL.  (1) After `cache_result` stores a Layer 1
result (whose status is `threat` or `clean`) under a fingerprint, an
immediate `check_cache` of the same fingerprint returns a hit with the same
verdict and confidence.  (2) A lookup of any fingerprint whose stored row is
more than 24 hours old returns nothing, although the row is still physically
present. -/
theorem C5_cache_roundtrip_ttl :
    (∀ (cache : Cache) (now : Nat) (h : String) (r : Layer1Result),
      r.status = "threat" ∨ r.status = "clean" →
      check_cache (cache_result cache now h r) now h =
        some { status := r.status, confidence := r.confidence, cached := true }) ∧
    (∀ (cache : Cache) (now : Nat) (h : String) (entry : CacheEntry),
      cacheLookup cache h = some entry → entry.timestamp + 86400 < now →
      check_cache cache now h = none) := by
  constructor
  · rintro cache now h r (hs | hs) <;>
      simp [check_cache, cache_result, cacheUpsert, cacheLookup, hs]
  · rintro cache now h entry hl ht
    simp only [check_cache, hl]
    rw [if_neg (by omega)]

/-- Witness for C5: storing a concrete threat result under `"h1"` at time 0
and reading it back at time 0 yields the same verdict and confidence; a row
stored at time 0 read at time 86401 (24h + 1s) is treated as absent. -/
theorem C5_cache_roundtrip_ttl_witness :
    check_cache (cache_result [] 0 "h1" threatL1) 0 "h1" =
      some { status := threatL1.status, confidence := threatL1.confidence, cached := true } ∧
    check_cache [("h1", entryAt0)] 86401 "h1" = none := by
  constructor
  · exact C5_cache_roundtrip_ttl.1 [] 0 "h1" threatL1 (Or.inl rfl)
  · exact C5_cache_roundtrip_ttl.2 [("h1", entryAt0)] 86401 "h1" entryAt0 (by decide) (by decide)

/-- A fresh Layer 1 result's status is either `threat` or `clean`. -/
theorem checkEmailFresh_status_cases (e : EmailData) :
    (checkEmailFresh e).status = "threat" ∨ (checkEmailFresh e).status = "clean" := by
  simp only [checkEmailFresh]
  split_ifs <;> simp

/-- C10: the Layer 1 cache key depends only on sender and subject, so when an
email E1 is scanned on a cache miss and any email E2 with the same sender and
subject (and an arbitrary, possibly different, body) is scanned within 24
hours against the resulting cache, Layer 1 returns for E2 exactly the cached
status and confidence computed from E1 — E2's body has no influence on its
own Layer 1 result. -/
theorem C10_cache_noninterference (cache : Cache) (now1 now2 : Nat)
    (e1 e2 : EmailData) (hs : e2.sender = e1.sender) (hsub : e2.subject = e1.subject)
    (hmiss : check_cache cache now1 (generate_email_hash e1) = none)
    (hwin : now2 < now1 + 86400) :
    (check_email (check_email cache now1 e1).2 now2 e2).1.status =
      (check_email cache now1 e1).1.status ∧
    (check_email (check_email cache now1 e1).2 now2 e2).1.confidence =
      (check_email cache now1 e1).1.confidence ∧
    (check_email (check_email cache now1 e1).2 now2 e2).1.cached = true := by
  have hh : generate_email_hash e2 = generate_email_hash e1 := by
    simp [generate_email_hash, hs, hsub]
  rw [check_email_miss cache now1 e1 hmiss]
  have hit : check_cache
      (cache_result cache now1 (generate_email_hash e1) (checkEmailFresh e1)) now2
      (generate_email_hash e2) =
      some { status := (checkEmailFresh e1).status
             confidence := (checkEmailFresh e1).confidence
             cached := true } := by
    rw [hh]
    rcases checkEmailFresh_status_cases e1 with h | h <;>
      simp [check_cache, cache_result, cacheUpsert, cacheLookup, h, hwin]
  simp [check_email, hit]

/-- Witness for C10: `emailCacheB` (same sender and subject as `emailCacheA`,
different body) scanned one hour after `emailCacheA` against the cache the
first scan populated. -/
theorem C10_cache_noninterference_witness :
    (check_email (check_email [] 0 emailCacheA).2 3600 emailCacheB).1.status =
      (check_email [] 0 emailCacheA).1.status ∧
    (check_email (check_email [] 0 emailCacheA).2 3600 emailCacheB).1.confidence =
      (check_email [] 0 emailCacheA).1.confidence ∧
    (check_email (check_email [] 0 emailCacheA).2 3600 emailCacheB).1.cached = true :=
  C10_cache_noninterference [] 0 3600 emailCacheA emailCacheB rfl rfl rfl (by omega)

/-- C2: for every email for which Layer 1 reports a status other than
`threat` and Layer 2 returns status `benign` with confidence strictly greater
than 0.8, the orchestrator short-circuits: the scan's `final_verdict` is
`safe`, `threat_level` is `low`, `confidence_score` equals the Layer 2
confidence, the result contains no layer3 entry, and the whole outcome is
independent of the Layer 3 argument (Layer 3 is never invoked). -/
theorem C2_benign_shortcircuit (hist : List ScanRow) (ts : String) (email : EmailData)
    (uid : String) (r1 : Layer1Result) (r2 : Layer2Result)
    (l3 : Except String Layer3Result) (pt : ℚ) (sf : Bool)
    (h1 : r1.status ≠ "threat") (h2 : r2.status = "benign")
    (h3 : r2.confidence > mkRat 8 10) :
    (process_email_scan hist ts email uid (.ok r1) (.ok r2) l3 pt sf).1.final_verdict
      = "safe" ∧
    (process_email_scan hist ts email uid (.ok r1) (.ok r2) l3 pt sf).1.threat_level
      = "low" ∧
    (process_email_scan hist ts email uid (.ok r1) (.ok r2) l3 pt sf).1.confidence_score
      = r2.confidence ∧
    (process_email_scan hist ts email uid (.ok r1) (.ok r2) l3 pt sf).1.layer3 = none ∧
    (∀ l3q : Except String Layer3Result,
      process_email_scan hist ts email uid (.ok r1) (.ok r2) l3q pt sf =
        process_email_scan hist ts email uid (.ok r1) (.ok r2) l3 pt sf) := by
  simp only [process_email_scan, finalize_scan_result]
  rw [if_neg h1, if_pos ⟨h2, h3⟩]
  refine ⟨rfl, rfl, rfl, rfl, ?_⟩
  intro l3q
  rw [if_neg h1, if_pos ⟨h2, h3⟩]

/-- Witness for C2: a clean Layer 1 result and a 0.9-confidence benign
Layer 2 result short-circuit to a safe verdict with no layer3 entry. -/
theorem C2_benign_shortcircuit_witness :
    (process_email_scan [] "20261012_120000" emailCacheA "user1" (.ok cleanL1)
        (.ok benignL2) (.ok safeL3) 0 false).1.final_verdict = "safe" ∧
    (process_email_scan [] "20261012_120000" emailCacheA "user1" (.ok cleanL1)
        (.ok benignL2) (.ok safeL3) 0 false).1.threat_level = "low" ∧
    (process_email_scan [] "20261012_120000" emailCacheA "user1" (.ok cleanL1)
        (.ok benignL2) (.ok safeL3) 0 false).1.confidence_score = benignL2.confidence ∧
    (process_email_scan [] "20261012_120000" emailCacheA "user1" (.ok cleanL1)
        (.ok benignL2) (.ok safeL3) 0 false).1.layer3 = none :=
  let h := C2_benign_shortcircuit [] "20261012_120000" emailCacheA "user1" cleanL1
    benignL2 (.ok safeL3) 0 false (by decide) rfl (by decide)
  ⟨h.1, h.2.1, h.2.2.1, h.2.2.2.1⟩

/-- C7: if any stage of a scan raises, the orchestrator catches it and the
returned scan result has `final_verdict = "error"`, `threat_level` still
`"unknown"`, the error message recorded, and the processing time recorded;
the returned result does not depend on whether persistence succeeds, a
persistence failure leaves the history untouched, and a successful
finalization always stores exactly the returned ScanRecord. -/
theorem C7_error_lifecycle (hist : List ScanRow) (ts : String) (email : EmailData)
    (uid : String) (l1 : Except String Layer1Result) (l2 : Except String Layer2Result)
    (l3 : Except String Layer3Result) (pt : ℚ) :
    (∀ (m : String) (sf : Bool), l1 = .error m →
      (process_email_scan hist ts email uid l1 l2 l3 pt sf).1.final_verdict = "error" ∧
      (process_email_scan hist ts email uid l1 l2 l3 pt sf).1.threat_level = "unknown" ∧
      (process_email_scan hist ts email uid l1 l2 l3 pt sf).1.error = some m ∧
      (process_email_scan hist ts email uid l1 l2 l3 pt sf).1.processing_time = pt) ∧
    (∀ (r1 : Layer1Result) (m : String) (sf : Bool),
      l1 = .ok r1 → r1.status ≠ "threat" → l2 = .error m →
      (process_email_scan hist ts email uid l1 l2 l3 pt sf).1.final_verdict = "error" ∧
      (process_email_scan hist ts email uid l1 l2 l3 pt sf).1.threat_level = "unknown" ∧
      (process_email_scan hist ts email uid l1 l2 l3 pt sf).1.error = some m ∧
      (process_email_scan hist ts email uid l1 l2 l3 pt sf).1.processing_time = pt) ∧
    (∀ (r1 : Layer1Result) (r2 : Layer2Result) (m : String) (sf : Bool),
      l1 = .ok r1 → r1.status ≠ "threat" → l2 = .ok r2 →
      ¬(r2.status = "benign" ∧ r2.confidence > mkRat 8 10) → l3 = .error m →
      (process_email_scan hist ts email uid l1 l2 l3 pt sf).1.final_verdict = "error" ∧
      (process_email_scan hist ts email uid l1 l2 l3 pt sf).1.threat_level = "unknown" ∧
      (process_email_scan hist ts email uid l1 l2 l3 pt sf).1.error = some m ∧
      (process_email_scan hist ts email uid l1 l2 l3 pt sf).1.processing_time = pt) ∧
    (process_email_scan hist ts email uid l1 l2 l3 pt true).1 =
      (process_email_scan hist ts email uid l1 l2 l3 pt false).1 ∧
    (process_email_scan hist ts email uid l1 l2 l3 pt true).2 = hist ∧
    (process_email_scan hist ts email uid l1 l2 l3 pt false).2 =
      store_scan_result hist (process_email_scan hist ts email uid l1 l2 l3 pt false).1 := by
  refine ⟨?_, ?_, ?_, ?_, ?_, ?_⟩
  · rintro m sf rfl
    simp [process_email_scan, finalize_scan_result]
  · rintro r1 m sf rfl hns rfl
    simp only [process_email_scan, finalize_scan_result]
    rw [if_neg hns]
    simp
  · rintro r1 r2 m sf rfl hns rfl hnb rfl
    simp only [process_email_scan, finalize_scan_result]
    rw [if_neg hns, if_neg hnb]
    simp
  · cases l1 <;> cases l2 <;> cases l3 <;>
      simp only [process_email_scan, finalize_scan_result] <;> split_ifs <;> rfl
  · cases l1 <;> cases l2 <;> cases l3 <;>
      simp only [process_email_scan, finalize_scan_result] <;> split_ifs <;> rfl
  · cases l1 <;> cases l2 <;> cases l3 <;>
      simp only [process_email_scan, finalize_scan_result] <;> split_ifs <;>
        first
          | rfl
          | simp_all

/-- Witness for C7: a Layer 1 call raising `"db down"` yields an error
verdict with unknown threat level and recorded message; the returned result
is the same whether or not persistence fails, and successful persistence
stores exactly one record of the error scan. -/
theorem C7_error_lifecycle_witness :
    (process_email_scan [] "20261012_120000" emailCacheA "user1" (.error "db down")
        (.ok benignL2) (.ok safeL3) 0 false).1.final_verdict = "error" ∧
    (process_email_scan [] "20261012_120000" emailCacheA "user1" (.error "db down")
        (.ok benignL2) (.ok safeL3) 0 false).1.threat_level = "unknown" ∧
    (process_email_scan [] "20261012_120000" emailCacheA "user1" (.error "db down")
        (.ok benignL2) (.ok safeL3) 0 false).1.error = some "db down" ∧
    (process_email_scan [] "20261012_120000" emailCacheA "user1" (.error "db down")
        (.ok benignL2) (.ok safeL3) 0 true).1 =
      (process_email_scan [] "20261012_120000" emailCacheA "user1" (.error "db down")
        (.ok benignL2) (.ok safeL3) 0 false).1 ∧
    (process_email_scan [] "20261012_120000" emailCacheA "user1" (.error "db down")
        (.ok benignL2) (.ok safeL3) 0 false).2 =
      store_scan_result []
        (process_email_scan [] "20261012_120000" emailCacheA "user1" (.error "db down")
          (.ok benignL2) (.ok safeL3) 0 false).1 :=
  let h := C7_error_lifecycle [] "20261012_120000" emailCacheA "user1" (.error "db down")
    (.ok benignL2) (.ok safeL3) 0
  let h1 := h.1 "db down" false rfl
  ⟨h1.1, h1.2.1, h1.2.2.1, h.2.2.2.1, h.2.2.2.2.2⟩

/-- C9 counterexample: two distinct scan requests — same user, same
second-resolution timestamp, different email bodies — receive the SAME
scan id, because the id is derived only from the formatted timestamp and the
user id.  (With `INSERT OR REPLACE`, the second scan then overwrites the
first row instead of adding one.) -/
theorem C9_counterexample :
    emailCacheA ≠ emailCacheB ∧
    (process_email_scan [] "20261012_120000" emailCacheA "user1" (.ok cleanL1)
        (.ok benignL2) (.ok safeL3) 0 false).1.scan_id =
      (process_email_scan [] "20261012_120000" emailCacheB "user1" (.ok cleanL1)
        (.ok benignL2) (.ok safeL3) 0 false).1.scan_id := by
  constructor
  · decide
  · decide

/-- C9 amended: scan ids are unique only per (second-resolution timestamp,
user id) pair — for formatted timestamps of equal length, two scan ids
coincide exactly when both the timestamp string and the user id coincide —
and finalizing a scan whose scan id is not yet in the history adds exactly
one row (`INSERT OR REPLACE` otherwise overwrites the existing row). -/
theorem C9_scan_id_unique_per_key :
    (∀ ts1 ts2 u1 u2 : String, ts1.length = ts2.length →
      (mkScanId ts1 u1 = mkScanId ts2 u2 ↔ ts1 = ts2 ∧ u1 = u2)) ∧
    (∀ (hist : List ScanRow) (r : ScanResult),
      (∀ x ∈ hist, x.scan_id ≠ r.scan_id) →
      (store_scan_result hist r).length = hist.length + 1) := by
  constructor
  · intro ts1 ts2 u1 u2 hlen
    constructor
    · intro h
      have hd := congrArg String.data h
      simp only [mkScanId, String.data_append, List.append_assoc] at hd
      have hd2 := List.append_cancel_left hd
      have hlen2 : ts1.data.length = ts2.data.length := hlen
      obtain ⟨hts, hu⟩ := List.append_inj hd2 hlen2
      refine ⟨?_, ?_⟩
      · cases ts1; cases ts2; simp_all
      · have hu2 := List.append_cancel_left hu
        cases u1; cases u2; simp_all
    · rintro ⟨rfl, rfl⟩
      rfl
  · intro hist r hfresh
    simp only [store_scan_result, List.length_cons, Nat.add_left_inj]
    rw [List.filter_eq_self.mpr]
    intro x hx
    simpa using hfresh x hx

/-- Witness for C9 amended: timestamps one second apart give different scan
ids, and storing a scan into an empty history yields exactly one row. -/
theorem C9_scan_id_unique_witness :
    mkScanId "20261012_120000" "user1" ≠ mkScanId "20261012_120001" "user1" ∧
    (store_scan_result [] sampleScanResult).length = 1 := by
  constructor
  · intro h
    have h2 := (C9_scan_id_unique_per_key.1 "20261012_120000" "20261012_120001"
      "user1" "user1" rfl).mp h
    exact absurd h2.1 (by decide)
  · exact C9_scan_id_unique_per_key.2 [] sampleScanResult (by simp)

/-- Mapping a constant over a list gives a replicate. -/
theorem map_const_replicate (l : List HistEntry) (v : String) :
    l.map (fun _ => v) = List.replicate l.length v := by
  induction l with
  | nil => rfl
  | cons a t ih => simp [List.replicate_succ, ih]

/-- Filtering a replicate by a different value gives the empty list. -/
theorem filter_replicate_ne (n : Nat) (v w : String) (h : (v == w) = false) :
    (List.replicate n v).filter (fun t => t == w) = [] := by
  induction n with
  | zero => rfl
  | succ k ih => simp [List.replicate_succ, List.filter_cons, h, ih]

/-- Filtering a replicate by its own value keeps everything. -/
theorem filter_replicate_eq (n : Nat) (v : String) :
    (List.replicate n v).filter (fun t => t == v) = List.replicate n v := by
  induction n with
  | zero => rfl
  | succ k ih => simp [List.replicate_succ, List.filter_cons, ih]

/-- On a nonempty all-`"neutral"` tone list the mode is `"neutral"`. -/
theorem mode_tone_replicate_neutral (n : Nat) (h : 1 ≤ n) :
    mode_tone (List.replicate n "neutral") = "neutral" := by
  simp only [mode_tone, filter_replicate_ne n "neutral" "urgent" (by decide),
    filter_replicate_ne n "neutral" "polite" (by decide),
    filter_replicate_ne n "neutral" "demanding" (by decide),
    filter_replicate_eq n "neutral", List.length_nil, List.length_replicate]
  rw [if_neg (by omega), if_neg (by omega), if_neg (by omega)]

/-- Because history entries are analyzed through their missing `'body'` key,
the historical tone of any nonempty history is `"neutral"`. -/
theorem analyze_historical_tone_neutral (hist : List HistEntry) (hne : hist ≠ []) :
    analyze_historical_tone hist = "neutral" := by
  have hbe : hist.isEmpty = false := by simpa [List.isEmpty_iff] using hne
  have hneu : analyze_email_tone none = "neutral" := by decide
  simp only [analyze_historical_tone, hbe, Bool.false_eq_true, if_false, hneu,
    map_const_replicate]
  apply mode_tone_replicate_neutral
  split
  · simp only [List.length_drop]
    omega
  · exact List.length_pos.mpr hne

/-- No message starting with `"Found "` is the tone-shift indicator. -/
theorem found_msg_ne_tone_shift (r : String) :
    ("Found " ++ r) ≠ "Tone shift detected - possible account compromise" := by
  intro h
  have hd := congrArg String.data h
  rw [String.data_append] at hd
  have h0 := congrArg List.head? hd
  rw [show "Found ".data = 'F' :: "ound ".data from rfl,
      show "Tone shift detected - possible account compromise".data =
        'T' :: "one shift detected - possible account compromise".data from rfl] at h0
  simp only [List.cons_append, List.head?_cons, Option.some.injEq] at h0
  exact absurd h0 (by decide)

/-- C8 counterexample: with exactly ONE prior conversation-history entry (so
fewer than 3) and an incoming email of urgent tone, the tone-mismatch
indicator IS added — refuting the claim that no tone-mismatch indicator is
added when fewer than 3 prior entries exist. -/
theorem C8_counterexample :
    histOneUrgent.length = 1 ∧
    analyze_email_tone (some emailUrgentTone.body) = "urgent" ∧
    "Tone shift detected - possible account compromise" ∈
      (analyze_conversation_context emailUrgentTone histOneUrgent).indicators := by
  decide

/-- C8 amended: whenever at least ONE prior entry exists (not three), the
incoming email's tone is compared against a historical tone; since the tone
analyzer reads the `'body'` key, which conversation-history entries do not
carry, every history entry's tone is `"neutral"` and so is their mode — hence
the tone-mismatch indicator is added exactly when the incoming email's own
tone is not `"neutral"`.  With zero prior entries no tone-mismatch indicator
is added. -/
theorem C8_tone_mismatch (e : EmailData) (hist : List HistEntry) :
    (hist ≠ [] →
      analyze_historical_tone hist = "neutral" ∧
      ("Tone shift detected - possible account compromise" ∈
          (analyze_conversation_context e hist).indicators ↔
        analyze_email_tone (some e.body) ≠ "neutral")) ∧
    (hist = [] →
      "Tone shift detected - possible account compromise" ∉
        (analyze_conversation_context e hist).indicators) := by
  constructor
  · intro hne
    have hn := analyze_historical_tone_neutral hist hne
    have hbe : hist.isEmpty = false := by simpa [List.isEmpty_iff] using hne
    refine ⟨hn, ?_⟩
    simp only [analyze_conversation_context, hn, hbe, Bool.not_false, if_true]
    by_cases htone : analyze_email_tone (some e.body) = "neutral"
    · rw [htone]
      simp only [ne_eq, not_true_eq_false, if_false]
      refine iff_of_false ?_ (by simp [htone])
      intro hmem
      rcases List.mem_append.mp hmem with hmem | hmem
      · revert hmem
        split <;> intro hmem <;> simp at hmem
      · simp only [List.mem_singleton] at hmem
        exact found_msg_ne_tone_shift _ (by rw [← String.append_assoc]; exact hmem.symm)
    · rw [if_pos htone]
      exact iff_of_true (by simp) htone
  · rintro rfl
    simp only [analyze_conversation_context, List.isEmpty_nil, Bool.not_true,
      Bool.false_eq_true, if_false]
    split <;> simp

/-- Witness for C8 amended: the single-entry history and urgent incoming
email make the tone-mismatch indicator fire; the same email against an empty
history never receives it. -/
theorem C8_tone_mismatch_witness :
    ("Tone shift detected - possible account compromise" ∈
      (analyze_conversation_context emailUrgentTone histOneUrgent).indicators) ∧
    ("Tone shift detected - possible account compromise" ∉
      (analyze_conversation_context emailUrgentTone []).indicators) :=
  ⟨((C8_tone_mismatch emailUrgentTone histOneUrgent).1 (by decide)).2.mpr (by decide),
   (C8_tone_mismatch emailUrgentTone []).2 rfl⟩

/-- `find?` after `updateFirst` on the same predicate finds the updated
element, provided the update preserves the predicate. -/
theorem find?_updateFirst (p : α → Bool) (f : α → α) (l : List α)
    (hpf : ∀ a, p a = true → p (f a) = true) :
    List.find? p (updateFirst p f l) = (List.find? p l).map f := by
  induction l with
  | nil => rfl
  | cons x xs ih =>
    by_cases h : p x = true
    · rw [updateFirst, if_pos h, List.find?_cons_of_pos _ (hpf x h),
        List.find?_cons_of_pos _ h]
      rfl
    · rw [updateFirst, if_neg h, List.find?_cons_of_neg _ ?hx, List.find?_cons_of_neg _ ?hx,
        ih]
      case hx => simpa using h

/-- C6: whenever Layer 3's verdict is `threat` or `suspicious`:
(a) a ConversationSession keyed `f"{user_id}_{sender}"` is created whose
start time is the operation time and whose timeout is that start time plus
10 hours; (b) a SuspectRecord for the sender is upserted — on a first
sighting a fresh record with `frequency_count = 1` and `first_seen =
last_seen = now` is appended, and (c) on a repeat sighting the existing
record's `frequency_count` is incremented (so a second store yields 2) and
its `last_seen` refreshed. -/
theorem C6_suspect_and_session (st : Layer3State) (now : Nat) (e : EmailData)
    (uid : String) (se : SEAnalysis) (imp : ImpersonationAnalysis)
    (hist : List HistEntry)
    (hv : (analyze_email st now e uid se imp hist).1.verdict = "threat" ∨
          (analyze_email st now e uid se imp hist).1.verdict = "suspicious") :
    (∃ rest, (analyze_email st now e uid se imp hist).2.active_conversations =
      (uid ++ "_" ++ e.sender,
        { user_id := uid
          sender := e.sender
          start_time := now
          status := "monitoring"
          timeout := now + 10 * 3600 }) :: rest) ∧
    (st.suspects.find? (fun r => r.sender_email == e.sender) = none →
      ∃ rec2, (analyze_email st now e uid se imp hist).2.suspects =
          st.suspects ++ [rec2] ∧
        rec2.sender_email = e.sender ∧ rec2.frequency_count = 1 ∧
        rec2.first_seen = now ∧ rec2.last_seen = now) ∧
    (∀ old, st.suspects.find? (fun r => r.sender_email == e.sender) = some old →
      ∃ upd, (analyze_email st now e uid se imp hist).2.suspects.find?
          (fun r => r.sender_email == e.sender) = some upd ∧
        upd.frequency_count = old.frequency_count + 1 ∧ upd.last_seen = now) := by
  have hv2 : (generate_final_assessment se imp
        (analyze_conversation_context e hist)).verdict = "threat" ∨
      (generate_final_assessment se imp
        (analyze_conversation_context e hist)).verdict = "suspicious" := by
    simpa [analyze_email] using hv
  refine ⟨?_, ?_, ?_⟩
  · simp only [analyze_email]
    rw [if_pos hv2]
    exact ⟨_, rfl⟩
  · intro hnone
    simp only [analyze_email]
    rw [if_pos hv2]
    simp only [store_suspect_info, Option.getD_some, hnone]
    exact ⟨_, rfl, rfl, rfl, rfl, rfl⟩
  · intro old hsome
    simp only [analyze_email]
    rw [if_pos hv2]
    simp only [store_suspect_info, Option.getD_some, hsome]
    rw [find?_updateFirst _ _ _ (fun a ha => by simpa using ha), hsome]
    exact ⟨_, rfl, rfl, rfl⟩

/-- Witness for C6: a score-90 social-engineering analysis forces a threat
verdict; the first analysis against an empty state creates the session
(timeout = start + 10h) and a frequency-1 suspect record; re-analyzing the
same sender afterwards bumps the frequency to 2 and refreshes `last_seen`. -/
theorem C6_suspect_and_session_witness :
    (∃ rest, (analyze_email emptyL3State 100 emailUrgentTone "user1" seHigh impLow
        []).2.active_conversations =
      ("user1" ++ "_" ++ emailUrgentTone.sender,
        { user_id := "user1"
          sender := emailUrgentTone.sender
          start_time := 100
          status := "monitoring"
          timeout := 100 + 10 * 3600 }) :: rest) ∧
    (∃ rec2, (analyze_email emptyL3State 100 emailUrgentTone "user1" seHigh impLow
        []).2.suspects = emptyL3State.suspects ++ [rec2] ∧
      rec2.sender_email = emailUrgentTone.sender ∧ rec2.frequency_count = 1 ∧
      rec2.first_seen = 100 ∧ rec2.last_seen = 100) ∧
    (∃ upd, (analyze_email
        (analyze_email emptyL3State 100 emailUrgentTone "user1" seHigh impLow []).2
        200 emailUrgentTone "user1" seHigh impLow []).2.suspects.find?
          (fun r => r.sender_email == emailUrgentTone.sender) = some upd ∧
      upd.frequency_count = 2 ∧ upd.last_seen = 200) := by
  have w := C6_suspect_and_session emptyL3State 100 emailUrgentTone "user1" seHigh
    impLow [] (by decide)
  have w2 := C6_suspect_and_session
    (analyze_email emptyL3State 100 emailUrgentTone "user1" seHigh impLow []).2
    200 emailUrgentTone "user1" seHigh impLow [] (by decide)
  obtain ⟨rec2, hs, hsend, hfreq, hfirst, hlast⟩ := w.2.1 (by decide)
  refine ⟨w.1, ⟨rec2, hs, hsend, hfreq, hfirst, hlast⟩, ?_⟩
  have hf : (analyze_email emptyL3State 100 emailUrgentTone "user1" seHigh impLow
      []).2.suspects.find? (fun r => r.sender_email == emailUrgentTone.sender) =
      some rec2 := by
    rw [hs]
    simp [emptyL3State, hsend]
  obtain ⟨upd, hu1, hu2, hu3⟩ := w2.2.2 rec2 hf
  exact ⟨upd, hu1, by rw [hu2, hfreq], hu3⟩

end PhishGuard
